/-
Verification of the EduMentor backend (src/edumentor/backend/server.py)
against its natural-language specification.

The Python handlers are shallowly embedded as pure Lean functions:
  - the MongoDB collections become lists of records, `find_one` with a
    filter becomes `List.find?` of the corresponding predicate, and
    `insert_one` becomes appending to the list (Mongo returns documents
    in insertion order for these simple queries);
  - outbound AI-model calls become explicit oracle parameters of type
    `Except String _` (the parsed model response, or the upstream error);
  - generated UUIDs and timestamps become explicit parameters;
  - Python `int` arithmetic becomes `Nat`; the one floating-point
    computation (the quiz score) is modelled bit-exactly by a
    round-to-nearest-even binary64 model written over `Nat` fractions;
  - the bcrypt digest (an external library, treated by the spec as an
    irreversible one-way function) is a function parameter `digest`;
    password records keep the salt so that verification can re-hash,
    exactly as passlib does;
  - JWT encode/decode with a fixed server secret is modelled by a
    structured payload; `jwt.decode` validates the `exp` claim and
    raises on expiry, which the embedding models by an explicit check.
-/
import Mathlib

deriving instance DecidableEq for Except

namespace EduMentor

/-! ## String primitives used by the handlers

Python `s.lower()` is modelled per-character (exact on ASCII, which is
all the grading rule needs); `s.strip()` is `String.trim`; the `in`
operator on strings is contiguous-substring containment, implemented
below on character lists. -/

/-- The characters Python `str.strip()` removes (ASCII whitespace). -/
def pySpace (c : Char) : Bool :=
  c == ' ' || c == '\t' || c == '\n' || c == '\r' || c == '\x0b' || c == '\x0c'

/-- Models Python `str.strip()` on character lists: drop whitespace from
both ends. -/
def pyStrip (cs : List Char) : List Char :=
  ((cs.dropWhile pySpace).reverse.dropWhile pySpace).reverse

/-- Models Python `s.lower().strip()` as applied in `submit_quiz`
(lowercase each character, then trim surrounding whitespace). -/
def pyLowerStrip (s : String) : String :=
  String.mk (pyStrip (s.data.map Char.toLower))

/-- Boolean test that `n` is a leading segment of `h` (character lists). -/
def isPrefixB : List Char → List Char → Bool
  | [], _ => true
  | _ :: _, [] => false
  | a :: as, b :: bs => a == b && isPrefixB as bs

/-- Boolean test that `n` occurs contiguously inside `h`: the meaning of
the Python expression `n in h` on strings. -/
def isSubB (n : List Char) : List Char → Bool
  | [] => n.isEmpty
  | b :: bs => isPrefixB n (b :: bs) || isSubB n bs

/-- Models Python `s.split(".")` on character lists: split at every dot,
keeping empty pieces, never returning an empty list of pieces. -/
def splitDot : List Char → List (List Char)
  | [] => [[]]
  | c :: cs =>
    let r := splitDot cs
    if c == '.' then [] :: r
    else
      match r with
      | [] => [[c]]
      | h :: t => (c :: h) :: t

/-- Models `file.filename.split(".")[-1].lower()` from `upload_material`. -/
def pyExtension (filename : String) : String :=
  String.mk (((splitDot filename.data).getLastD []).map Char.toLower)

/-- Models Python `s.title()` (ASCII: capitalize the first letter of each
alphabetic run, lowercase the rest), used for the generated quiz title. -/
def pyTitleAux : List Char → Bool → List Char
  | [], _ => []
  | c :: cs, prevAlpha =>
    (if c.isAlpha then (if prevAlpha then c.toLower else c.toUpper) else c) ::
      pyTitleAux cs c.isAlpha

/-- Models Python `s.title()` on strings. -/
def pyTitle (s : String) : String :=
  String.mk (pyTitleAux s.data false)

/-! ## Data model (the pydantic models of server.py)

Timestamps are abstract `Nat` instants; `EmailStr` is a plain string
(its format validation is orthogonal to every claim). -/

/-- `QuizQuestion` of server.py. -/
structure QuizQuestion where
  id : String
  question : String
  options : Option (List String)
  answer : String
  explanation : String
  question_type : String
deriving DecidableEq, Inhabited

/-- `Quiz` of server.py. -/
structure Quiz where
  id : String
  material_id : String
  user_id : String
  title : String
  questions : List QuizQuestion
  quiz_type : String
  time_limit : Nat
  created_at : Nat
deriving DecidableEq, Inhabited

/-- One element of the `user_answers` list of a quiz submission
(the dict with keys `question_id` and `answer`). -/
structure UserAnswer where
  question_id : String
  answer : String
deriving DecidableEq, Inhabited

/-- `QuizResponse` of server.py. -/
structure QuizResponseDoc where
  quiz_id : String
  user_answers : List UserAnswer
  score : Option Nat
  completed_at : Nat
deriving DecidableEq, Inhabited

/-- `StudyMaterial` of server.py. -/
structure StudyMaterial where
  id : String
  user_id : String
  title : String
  file_type : String
  extracted_text : String
  uploaded_at : Nat
deriving DecidableEq, Inhabited

/-- `Flashcard` of server.py. -/
structure Flashcard where
  id : String
  material_id : String
  user_id : String
  question : String
  answer : String
  explanation : String
  created_at : Nat
deriving DecidableEq, Inhabited

/-- One parsed flashcard dict from the AI response
(`generate_flashcards_with_ai` keeps the three string fields). -/
structure FlashcardData where
  question : String
  answer : String
  explanation : String
deriving DecidableEq, Inhabited

/-- A stored user document: the `User` model of server.py plus the
`hashed_password` field added before `insert_one`. -/
structure StoredUser where
  id : String
  email : String
  full_name : String
  hashed_password_salt : String
  hashed_password_digest : String
  created_at : Nat
deriving DecidableEq, Inhabited

/-- The decoded JWT payload produced by `create_access_token`:
subject claim and expiry instant. -/
structure TokenPayload where
  sub : String
  exp : Nat
deriving DecidableEq, Inhabited

/-- The errors the handlers surface, by HTTP status:
401, 400 (duplicate email), 400 (bad extension), 404, 500 from the AI
gateway, 500 from an uncaught exception. -/
inductive ApiErr where
  | unauthorized
  | conflict
  | badRequest
  | notFound
  | upstream (msg : String)
  | serverError
deriving DecidableEq, Inhabited

/-! ## Bit-exact binary64 model of the score computation

`submit_quiz` computes `int((correct_answers / total_questions) * 100)`:
a binary64 division, a binary64 multiplication by 100.0 (exact as an
input), and truncation toward zero.  Both operations are correctly
rounded (round to nearest, ties to even), so the computation is modelled
by rounding the exact rational twice.  Everything is kept in `Nat`
fractions so the kernel can evaluate it.  The model covers the normal
range of binary64, which contains every value reachable here whose
truncation is nonzero. -/

/-- Given `b ≤ a` (so `a/b ≥ 1`), returns `e` with `b·2^e ≤ a < b·2^(e+1)`
by doubling `b`; `fuel` bounds the search (4000 far exceeds the binary64
exponent range). -/
def log2Up : Nat → Nat → Nat → Nat → Nat
  | 0, _, _, e => e
  | fuel + 1, a, b, e => if a < 2 * b then e else log2Up fuel a (2 * b) (e + 1)

/-- Given `a < b` (so `a/b < 1`), returns `p ≥ 1` with
`b ≤ a·2^p < 2·b`, by doubling `a`; the floor base-2 logarithm of `a/b`
is `-p`. -/
def log2Down : Nat → Nat → Nat → Nat → Nat
  | 0, _, _, p => p
  | fuel + 1, a, b, p => if b ≤ 2 * a then p + 1 else log2Down fuel (2 * a) b (p + 1)

/-- Round the fraction `a/b` (with `b ≠ 0`) to the nearest integer,
ties to even. -/
def rndNE (a b : Nat) : Nat :=
  let q := a / b
  let r := a % b
  if 2 * r < b then q
  else if b < 2 * r then q + 1
  else if q % 2 = 0 then q else q + 1

/-- Round the nonnegative rational `a/b` (with `b ≠ 0`) to the nearest
binary64 value (round to nearest, ties to even), returned as a fraction
`(numerator, denominator)` whose denominator is a power of two.  The
mantissa is the 53-bit round of `a/b` scaled into `[2^52, 2^53]`. -/
def roundDouble (a b : Nat) : Nat × Nat :=
  if a = 0 then (0, 1)
  else if b ≤ a then
    let e := log2Up 4000 a b 0
    if e ≤ 52 then
      (rndNE (a * 2 ^ (52 - e)) b, 2 ^ (52 - e))
    else
      (rndNE a (b * 2 ^ (e - 52)) * 2 ^ (e - 52), 1)
  else
    let p := log2Down 4000 a b 0
    (rndNE (a * 2 ^ (52 + p)) b, 2 ^ (52 + p))

/-- The exact value of `int((k / n) * 100)` as server.py computes it:
binary64 division `k/n`, binary64 multiplication by 100, truncation
(which is floor, all values being nonnegative). -/
def pyScore (k n : Nat) : Nat :=
  let d1 := roundDouble k n
  let d2 := roundDouble (100 * d1.1) d1.2
  d2.1 / d2.2

/-! ## Auth service (register, login, get_current_user)

The bcrypt digest is an abstract parameter `digest : salt → password →
digest`; passlib stores salt and digest together and verifies by
re-hashing with the stored salt, never by inversion.  JWTs signed with
the fixed server secret round-trip, so a token is modelled by its
payload; `jwt.decode` additionally validates the `exp` claim and raises
`ExpiredSignatureError` (a `PyJWTError`) on an expired token. -/

/-- `ACCESS_TOKEN_EXPIRE_MINUTES` of server.py. -/
def ACCESS_TOKEN_EXPIRE_MINUTES : Nat := 30

/-- `create_access_token` of server.py: the payload carries the data
passed in (`sub`) plus an `exp` claim `expire_minutes` minutes from now
(time is measured in seconds). -/
def create_access_token (sub : String) (now expire_minutes : Nat) : TokenPayload :=
  { sub := sub, exp := now + expire_minutes * 60 }

/-- Models `pwd_context.hash`: a fresh salt plus the bcrypt digest of
the password under that salt. -/
def get_password_hash (digest : String → String → String) (salt password : String) :
    String × String :=
  (salt, digest salt password)

/-- `verify_password` of server.py via `pwd_context.verify`: re-hash the
plaintext with the stored salt and compare with the stored digest. -/
def verify_password (digest : String → String → String) (plain : String)
    (storedSalt storedDigest : String) : Bool :=
  digest storedSalt plain == storedDigest

/-- `register` of server.py.  Returns the handler result together with
the users collection after the call (unchanged when the call fails).
`newId` is the UUID pydantic generates for the new `User`. -/
def register (digest : String → String → String) (users : List StoredUser)
    (email password full_name : String) (newId salt : String) (now : Nat) :
    Except ApiErr TokenPayload × List StoredUser :=
  match users.find? (fun u => u.email == email) with
  | some _ => (.error .conflict, users)
  | none =>
    let hp := get_password_hash digest salt password
    let u : StoredUser :=
      { id := newId, email := email, full_name := full_name,
        hashed_password_salt := hp.1, hashed_password_digest := hp.2,
        created_at := now }
    (.ok (create_access_token newId now ACCESS_TOKEN_EXPIRE_MINUTES), users ++ [u])

/-- `login` of server.py. -/
def login (digest : String → String → String) (users : List StoredUser)
    (email password : String) (now : Nat) : Except ApiErr TokenPayload :=
  match users.find? (fun u => u.email == email) with
  | none => .error .unauthorized
  | some u =>
    if verify_password digest password u.hashed_password_salt u.hashed_password_digest then
      .ok (create_access_token u.id now ACCESS_TOKEN_EXPIRE_MINUTES)
    else .error .unauthorized

/-- `get_current_user` of server.py: `jwt.decode` raises on an expired
token (caught as a `PyJWTError`, hence 401); then the subject must
resolve to a stored user. -/
def get_current_user (users : List StoredUser) (tok : TokenPayload) (now : Nat) :
    Except ApiErr StoredUser :=
  if tok.exp < now then .error .unauthorized
  else
    match users.find? (fun u => u.id == tok.sub) with
    | none => .error .unauthorized
    | some u => .ok u

/-! ## Material ingestion and reads -/

/-- `allowed_extensions` of `upload_material`. -/
def allowed_extensions : List String :=
  ["pdf", "docx", "pptx", "jpg", "jpeg", "png", "txt"]

/-- The observable state `upload_material` touches: the upload
directory, the `study_materials` collection, and the number of AI
gateway invocations made so far. -/
structure UploadState where
  files : List String
  materials : List StudyMaterial
  aiCalls : Nat
deriving DecidableEq, Inhabited

/-- `upload_material` of server.py: validate the extension (400 on
failure, before any file write or AI call); save the raw file under
`fileId.ext`; call the AI extractor (500 on failure, the file remains);
persist the `StudyMaterial` (whose own id is the fresh UUID `matId`). -/
def upload_material (st : UploadState) (uid title filename : String)
    (fileId matId : String) (now : Nat) (extract : Except String String) :
    Except ApiErr String × UploadState :=
  let ext := pyExtension filename
  if allowed_extensions.contains ext = false then (.error .badRequest, st)
  else
    let path := fileId ++ "." ++ ext
    let files1 := st.files ++ [path]
    match extract with
    | .error msg =>
      (.error (.upstream msg),
        { files := files1, materials := st.materials, aiCalls := st.aiCalls + 1 })
    | .ok text =>
      let material : StudyMaterial :=
        { id := matId, user_id := uid, title := title, file_type := ext,
          extracted_text := text, uploaded_at := now }
      (.ok material.id,
        { files := files1, materials := st.materials ++ [material],
          aiCalls := st.aiCalls + 1 })

/-- `get_material` of server.py: `find_one` filtered by the material id
and the authenticated user id, 404 when absent. -/
def get_material (ms : List StudyMaterial) (uid material_id : String) :
    Except ApiErr StudyMaterial :=
  match ms.find? (fun m => m.id == material_id && m.user_id == uid) with
  | none => .error .notFound
  | some m => .ok m

/-! ## Quiz generation and submission -/

/-- `generate_quiz` of server.py: load the material (404 when absent or
not owned), call the AI (the oracle `ai` is the parsed question list, or
the upstream error surfaced as a 500), build the quiz with the derived
time limit and synthesized title, persist it.  Returns the handler
result and the quizzes collection after the call. -/
def generate_quiz (ms : List StudyMaterial) (quizzes : List Quiz)
    (uid material_id quiz_type question_type quizId : String) (now : Nat)
    (ai : Except String (List QuizQuestion)) : Except ApiErr Quiz × List Quiz :=
  match ms.find? (fun m => m.id == material_id && m.user_id == uid) with
  | none => (.error .notFound, quizzes)
  | some material =>
    match ai with
    | .error msg => (.error (.upstream msg), quizzes)
    | .ok questions =>
      let time_limit : Nat := if question_type == "mcq" then 15 else 30
      let quiz : Quiz :=
        { id := quizId, material_id := material_id, user_id := uid,
          title := material.title ++ " - " ++ pyTitle quiz_type ++ " Quiz",
          questions := questions, quiz_type := quiz_type,
          time_limit := time_limit, created_at := now }
      (.ok quiz, quizzes ++ [quiz])

/-- The per-pair grading step of `submit_quiz`: locate the first
embedded question whose id equals the submitted `question_id` (`next`
over the list, default `None`), then test
`question["answer"].lower().strip() in user_ans.lower().strip()`.
A pair whose id matches no question yields `false`. -/
def gradePair (qs : List QuizQuestion) (ua : UserAnswer) : Bool :=
  match qs.find? (fun q => q.id == ua.question_id) with
  | none => false
  | some q => isSubB (pyLowerStrip q.answer).data (pyLowerStrip ua.answer).data

/-- The `correct_answers` accumulator of `submit_quiz`: the loop over
the submitted pairs, incrementing on each graded-correct pair. -/
def correctCount (qs : List QuizQuestion) (answers : List UserAnswer) : Nat :=
  answers.foldl (fun acc ua => if gradePair qs ua then acc + 1 else acc) 0

/-- The grading predicate exactly as the specification words it: the
pair is correct when SOME embedded question carries the submitted id and
its canonical answer (lowercased, stripped) occurs inside the submitted
answer (lowercased, stripped).  Stated independently of the
first-match-wins `next(...)` of the code, for comparison with it. -/
def specCorrect (qs : List QuizQuestion) (ua : UserAnswer) : Bool :=
  qs.any (fun q =>
    q.id == ua.question_id &&
      isSubB (pyLowerStrip q.answer).data (pyLowerStrip ua.answer).data)

/-- The errors `submit_quiz` can produce: 404, or the uncaught
`ZeroDivisionError` of `correct_answers / total_questions` when the
stored quiz embeds no questions (surfaced as a 500). -/
inductive SubmitErr where
  | notFound
  | zeroDivision
deriving DecidableEq, Inhabited

/-- The success payload of `submit_quiz`. -/
structure SubmitOk where
  score : Nat
  correct_answers : Nat
  total_questions : Nat
deriving DecidableEq, Inhabited

/-- `submit_quiz` of server.py: load the quiz filtered by id and user id
(404 when absent), grade each submitted pair, compute
`int((correct / total) * 100)` (raising `ZeroDivisionError` when the
quiz has no questions), persist the response with the score filled in.
Returns the handler result and the quiz_responses collection after the
call. -/
def submit_quiz (quizzes : List Quiz) (responses : List QuizResponseDoc)
    (uid quiz_id : String) (resp : QuizResponseDoc) :
    Except SubmitErr SubmitOk × List QuizResponseDoc :=
  match quizzes.find? (fun q => q.id == quiz_id && q.user_id == uid) with
  | none => (.error .notFound, responses)
  | some quiz =>
    let total := quiz.questions.length
    let correct := correctCount quiz.questions resp.user_answers
    if total = 0 then (.error .zeroDivision, responses)
    else
      let score := pyScore correct total
      (.ok { score := score, correct_answers := correct, total_questions := total },
        responses ++ [{ resp with score := some score }])

/-! ## Flashcards and tutor chat -/

/-- `generate_flashcards` of server.py: load the material (404 when
absent or not owned), call the AI (`ai` is the parsed list of flashcard
dicts, or the upstream error), build one `Flashcard` per parsed dict
(ids are the fresh UUIDs `mkId 0`, `mkId 1`, ...), persist the whole
batch with `insert_many` (which raises on an empty batch — surfaced as
an uncaught 500), and return the batch. -/
def generate_flashcards (ms : List StudyMaterial) (fcs : List Flashcard)
    (uid material_id : String) (mkId : Nat → String) (now : Nat)
    (ai : Except String (List FlashcardData)) :
    Except ApiErr (List Flashcard) × List Flashcard :=
  match ms.find? (fun m => m.id == material_id && m.user_id == uid) with
  | none => (.error .notFound, fcs)
  | some _ =>
    match ai with
    | .error msg => (.error (.upstream msg), fcs)
    | .ok data =>
      let newCards := data.enum.map (fun p =>
        ({ id := mkId p.1, material_id := material_id, user_id := uid,
           question := p.2.question, answer := p.2.answer,
           explanation := p.2.explanation, created_at := now } : Flashcard))
      if newCards.isEmpty then (.error .serverError, fcs)
      else (.ok newCards, fcs ++ newCards)

/-- `ask_question` of server.py: load the material (404 when absent or
not owned), send the single-turn prompt, return the raw model answer
(`ai` is the model reply or the upstream error, surfaced as a 500). -/
def ask_question (ms : List StudyMaterial) (uid material_id question : String)
    (ai : Except String String) : Except ApiErr String :=
  match ms.find? (fun m => m.id == material_id && m.user_id == uid) with
  | none => .error .notFound
  | some _ =>
    match ai with
    | .error msg => .error (.upstream msg)
    | .ok answer => .ok answer

/-! ## Supporting lemmas -/

/-- The result of a quiz submission, projected to its score (errors
carry no score). -/
def scoreOf : Except SubmitErr SubmitOk → Nat
  | .ok r => r.score
  | .error _ => 0

/-- Whether an `Except` is a success. -/
def exceptOk {ε α : Type} : Except ε α → Bool
  | .ok _ => true
  | .error _ => false

/-- The length of a successfully returned list. -/
def okLength {ε α : Type} : Except ε (List α) → Option Nat
  | .ok l => some l.length
  | .error _ => none

theorem isPrefixB_iff (n : List Char) : ∀ h : List Char,
    isPrefixB n h = true ↔ ∃ t, n ++ t = h := by
  induction n with
  | nil =>
    intro h
    simp [isPrefixB]
  | cons a as ih =>
    intro h
    cases h with
    | nil => simp [isPrefixB]
    | cons b bs =>
      simp only [isPrefixB, Bool.and_eq_true, beq_iff_eq, ih bs, List.cons_append,
        List.cons.injEq]
      constructor
      · rintro ⟨rfl, t, rfl⟩
        exact ⟨t, rfl, rfl⟩
      · rintro ⟨t, rfl, rfl⟩
        exact ⟨rfl, t, rfl⟩

theorem isSubB_iff (n : List Char) : ∀ h : List Char,
    isSubB n h = true ↔ ∃ s t, s ++ n ++ t = h := by
  intro h
  induction h with
  | nil =>
    simp only [isSubB, List.isEmpty_eq_true]
    constructor
    · rintro rfl
      exact ⟨[], [], rfl⟩
    · rintro ⟨s, t, he⟩
      rcases List.append_eq_nil.mp he with ⟨h1, h2⟩
      exact (List.append_eq_nil.mp h1).2
  | cons b bs ih =>
    simp only [isSubB, Bool.or_eq_true, isPrefixB_iff, ih]
    constructor
    · rintro (⟨t, he⟩ | ⟨s, t, he⟩)
      · exact ⟨[], t, by simpa using he⟩
      · exact ⟨b :: s, t, by simp [← he]⟩
    · rintro ⟨s, t, he⟩
      cases s with
      | nil => exact Or.inl ⟨t, by simpa using he⟩
      | cons b1 s1 =>
        simp only [List.cons_append, List.cons.injEq] at he
        exact Or.inr ⟨s1, t, he.2⟩

theorem correctCount_eq_countP (qs : List QuizQuestion) (answers : List UserAnswer) :
    correctCount qs answers = answers.countP (gradePair qs) := by
  have aux : ∀ (l : List UserAnswer) (acc : Nat),
      l.foldl (fun a ua => if gradePair qs ua then a + 1 else a) acc =
        acc + l.countP (gradePair qs) := by
    intro l
    induction l with
    | nil => intro acc; simp
    | cons x xs ih =>
      intro acc
      cases hx : gradePair qs x <;>
        simp [List.foldl_cons, List.countP_cons, hx, ih] <;> omega
  simpa using aux answers 0

theorem gradePair_eq_specCorrect {qs : List QuizQuestion} (ua : UserAnswer)
    (hnd : (qs.map QuizQuestion.id).Nodup) :
    gradePair qs ua = specCorrect qs ua := by
  cases hfind : qs.find? (fun q => q.id == ua.question_id) with
  | none =>
    have hall := List.find?_eq_none.mp hfind
    simp only [gradePair, hfind]
    symm
    simp only [specCorrect, List.any_eq_false]
    intro q hq
    simp only [Bool.and_eq_true, not_and]
    intro hid
    exact absurd hid (hall q hq)
  | some q =>
    have hid := List.find?_some hfind
    have hmem : q ∈ qs := List.mem_of_find?_eq_some hfind
    simp only at hid
    simp only [gradePair, hfind]
    cases hsub : isSubB (pyLowerStrip q.answer).data (pyLowerStrip ua.answer).data with
    | true =>
      symm
      simp only [specCorrect, List.any_eq_true]
      exact ⟨q, hmem, by simp [hid, hsub]⟩
    | false =>
      symm
      simp only [specCorrect, List.any_eq_false]
      intro q1 hq1
      simp only [Bool.and_eq_true, not_and]
      intro hid1 hsub1
      have heq : q1 = q := by
        apply List.inj_on_of_nodup_map hnd hq1 hmem
        rw [beq_iff_eq] at hid hid1
        rw [hid, hid1]
      rw [heq, hsub] at hsub1
      exact Bool.false_ne_true hsub1

theorem correctCount_le_length (qs : List QuizQuestion) (answers : List UserAnswer)
    (hnd : (answers.map UserAnswer.question_id).Nodup) :
    correctCount qs answers ≤ qs.length := by
  rw [correctCount_eq_countP, List.countP_eq_length_filter]
  set F := answers.filter (gradePair qs) with hF
  have hsubl : List.Sublist (F.map UserAnswer.question_id)
      (answers.map UserAnswer.question_id) :=
    (List.filter_sublist answers).map UserAnswer.question_id
  have hndF : (F.map UserAnswer.question_id).Nodup := hnd.sublist hsubl
  have hsubset : F.map UserAnswer.question_id ⊆ qs.map QuizQuestion.id := by
    intro x hx
    rcases List.mem_map.mp hx with ⟨ua, huaF, rfl⟩
    have hg : gradePair qs ua = true := List.of_mem_filter huaF
    rw [gradePair] at hg
    cases hfind : qs.find? (fun q => q.id == ua.question_id) with
    | none => rw [hfind] at hg; exact absurd hg Bool.false_ne_true
    | some q =>
      have hid := List.find?_some hfind
      have hmem : q ∈ qs := List.mem_of_find?_eq_some hfind
      simp only [beq_iff_eq] at hid
      exact List.mem_map.mpr ⟨q, hmem, hid⟩
  have hle := (List.subperm_of_subset hndF hsubset).length_le
  simpa using hle

theorem rndNE_le {a b c : Nat} (hb : 0 < b) (h : a ≤ b * c) : rndNE a b ≤ c := by
  have hq : a / b ≤ c := by
    calc a / b ≤ b * c / b := Nat.div_le_div_right h
    _ = c := by rw [Nat.mul_div_cancel_left c hb]
  rw [rndNE]
  by_cases h1 : 2 * (a % b) < b
  · simp only [if_pos h1]
    exact hq
  · have hr : 0 < a % b := by omega
    have hqc : a / b < c := by
      have hmod := Nat.div_add_mod a b
      rcases Nat.lt_or_ge (a / b) c with hlt | hge
      · exact hlt
      · exfalso
        have hqe : a / b = c := le_antisymm hq hge
        rw [hqe] at hmod
        omega
    simp only [if_neg h1]
    by_cases h2 : b < 2 * (a % b) <;> by_cases h3 : a / b % 2 = 0 <;>
      simp [h2, h3] <;> omega

theorem log2Up_ge : ∀ (fuel a b e : Nat), e ≤ log2Up fuel a b e := by
  intro fuel
  induction fuel with
  | zero => intro a b e; simp [log2Up]
  | succ fuel ih =>
    intro a b e
    rw [log2Up]
    by_cases hlt : a < 2 * b
    · simp [hlt]
    · simp only [if_neg hlt]
      exact le_trans (Nat.le_succ e) (ih a (2 * b) (e + 1))

theorem log2Up_lower : ∀ (fuel a b e : Nat), 0 < b → b ≤ a →
    b * 2 ^ (log2Up fuel a b e - e) ≤ a := by
  intro fuel
  induction fuel with
  | zero => intro a b e hb hba; simpa [log2Up] using hba
  | succ fuel ih =>
    intro a b e hb hba
    rw [log2Up]
    by_cases hlt : a < 2 * b
    · simpa [hlt] using hba
    · simp only [if_neg hlt]
      have h2b : 2 * b ≤ a := Nat.le_of_not_lt hlt
      have hih := ih a (2 * b) (e + 1) (by omega) h2b
      have hge := log2Up_ge fuel a (2 * b) (e + 1)
      set r := log2Up fuel a (2 * b) (e + 1) with hr
      have hexp : r - e = (r - (e + 1)) + 1 := by omega
      rw [hexp, pow_succ]
      calc b * (2 ^ (r - (e + 1)) * 2) = 2 * b * 2 ^ (r - (e + 1)) := by ring
      _ ≤ a := hih

theorem roundDouble_snd_pos (a b : Nat) : 0 < (roundDouble a b).2 := by
  rw [roundDouble]
  by_cases ha : a = 0
  · simp [ha]
  · simp only [if_neg ha]
    by_cases hba : b ≤ a
    · by_cases he : log2Up 4000 a b 0 ≤ 52 <;> simp [hba, he] <;> positivity
    · simp only [if_neg hba]
      positivity

theorem roundDouble_le {a b B : Nat} (hb : 0 < b) (hB1 : 1 ≤ B) (hB52 : B ≤ 2 ^ 52)
    (h : a ≤ B * b) : (roundDouble a b).1 ≤ B * (roundDouble a b).2 := by
  rw [roundDouble]
  by_cases ha : a = 0
  · simp only [if_pos ha]
    positivity
  · simp only [if_neg ha]
    by_cases hba : b ≤ a
    · simp only [if_pos hba]
      have hlow := log2Up_lower 4000 a b 0 hb hba
      set e := log2Up 4000 a b 0 with hedef
      have hpow : 2 ^ e ≤ 2 ^ 52 := by
        have h1 : b * 2 ^ e ≤ b * 2 ^ 52 := by
          calc b * 2 ^ e ≤ a := by simpa using hlow
          _ ≤ B * b := h
          _ ≤ 2 ^ 52 * b := Nat.mul_le_mul_right b hB52
          _ = b * 2 ^ 52 := Nat.mul_comm _ _
        exact Nat.le_of_mul_le_mul_left h1 hb
      have he52 : e ≤ 52 := (Nat.pow_le_pow_iff_right (by omega)).mp hpow
      simp only [if_pos he52]
      have harg : a * 2 ^ (52 - e) ≤ b * (B * 2 ^ (52 - e)) := by
        have h2 : a * 2 ^ (52 - e) ≤ B * b * 2 ^ (52 - e) :=
          Nat.mul_le_mul_right (2 ^ (52 - e)) h
        have h3 : B * b * 2 ^ (52 - e) = b * (B * 2 ^ (52 - e)) := by ring
        omega
      exact rndNE_le hb harg
    · simp only [if_neg hba]
      have harg : a * 2 ^ (52 + log2Down 4000 a b 0) ≤
          b * (B * 2 ^ (52 + log2Down 4000 a b 0)) := by
        have h2 : a * 2 ^ (52 + log2Down 4000 a b 0) ≤
            B * b * 2 ^ (52 + log2Down 4000 a b 0) :=
          Nat.mul_le_mul_right (2 ^ (52 + log2Down 4000 a b 0)) h
        have h3 : B * b * 2 ^ (52 + log2Down 4000 a b 0) =
            b * (B * 2 ^ (52 + log2Down 4000 a b 0)) := by ring
        omega
      exact rndNE_le hb harg

theorem pyScore_le_100 {k n : Nat} (hn : 0 < n) (hk : k ≤ n) : pyScore k n ≤ 100 := by
  rw [pyScore]
  have h1 : (roundDouble k n).1 ≤ 1 * (roundDouble k n).2 :=
    roundDouble_le hn le_rfl (by norm_num) (by omega)
  have hpos1 : 0 < (roundDouble k n).2 := roundDouble_snd_pos k n
  have h2 : (roundDouble (100 * (roundDouble k n).1) (roundDouble k n).2).1 ≤
      100 * (roundDouble (100 * (roundDouble k n).1) (roundDouble k n).2).2 :=
    roundDouble_le hpos1 (by norm_num) (by norm_num) (by omega)
  have hpos2 : 0 < (roundDouble (100 * (roundDouble k n).1) (roundDouble k n).2).2 :=
    roundDouble_snd_pos _ _
  calc (roundDouble (100 * (roundDouble k n).1) (roundDouble k n).2).1 /
        (roundDouble (100 * (roundDouble k n).1) (roundDouble k n).2).2 ≤
      100 * (roundDouble (100 * (roundDouble k n).1) (roundDouble k n).2).2 /
        (roundDouble (100 * (roundDouble k n).1) (roundDouble k n).2).2 :=
    Nat.div_le_div_right h2
  _ = 100 := Nat.mul_div_cancel 100 hpos2

theorem pyScore_eq_floor_small :
    ∀ n < 11, ∀ k < 11, 1 ≤ n → k ≤ n → pyScore k n = 100 * k / n := by decide

/-! ## Claims -/

/-- C1: a submitted (questionId, answer) pair is counted correct iff some
embedded question of the quiz has that id and its canonical answer,
case-folded and trimmed, occurs as a substring of the submitted answer,
case-folded and trimmed; a pair matching no embedded question
contributes nothing and causes no error.  The hypothesis states that the
embedded question ids are pairwise distinct, which stored quizzes have
(each id is a freshly generated UUID). -/
theorem claim_C1_grading_rule (qs : List QuizQuestion) (answers : List UserAnswer)
    (ua : UserAnswer) (hnd : (qs.map QuizQuestion.id).Nodup) :
    correctCount qs answers = answers.countP (gradePair qs) ∧
    (gradePair qs ua = true ↔ ∃ q, q ∈ qs ∧ q.id = ua.question_id ∧
      ∃ s t : List Char,
        s ++ (pyLowerStrip q.answer).data ++ t = (pyLowerStrip ua.answer).data) := by
  refine ⟨correctCount_eq_countP qs answers, ?_⟩
  rw [gradePair_eq_specCorrect ua hnd, specCorrect, List.any_eq_true]
  constructor
  · rintro ⟨q, hq, hcond⟩
    simp only [Bool.and_eq_true, beq_iff_eq] at hcond
    exact ⟨q, hq, hcond.1, (isSubB_iff _ _).mp hcond.2⟩
  · rintro ⟨q, hq, hid, hsub⟩
    exact ⟨q, hq, by simp [hid, (isSubB_iff _ _).mpr hsub]⟩

/-- Witness for C1: a one-question quiz graded against a superstring
answer in different case. -/
theorem claim_C1_witness :
    (([⟨"q1", "Capital?", none, " Paris ", "", "short_answer"⟩] :
        List QuizQuestion).map QuizQuestion.id).Nodup ∧
    (correctCount [⟨"q1", "Capital?", none, " Paris ", "", "short_answer"⟩]
        [⟨"q1", "it is PARIS I think"⟩] =
      List.countP (gradePair [⟨"q1", "Capital?", none, " Paris ", "", "short_answer"⟩])
        [⟨"q1", "it is PARIS I think"⟩] ∧
    (gradePair [⟨"q1", "Capital?", none, " Paris ", "", "short_answer"⟩]
        ⟨"q1", "it is PARIS I think"⟩ = true ↔
      ∃ q, q ∈ ([⟨"q1", "Capital?", none, " Paris ", "", "short_answer"⟩] :
          List QuizQuestion) ∧ q.id = "q1" ∧
        ∃ s t : List Char, s ++ (pyLowerStrip q.answer).data ++ t =
          (pyLowerStrip "it is PARIS I think").data)) :=
  ⟨by decide,
   claim_C1_grading_rule [⟨"q1", "Capital?", none, " Paris ", "", "short_answer"⟩]
     [⟨"q1", "it is PARIS I think"⟩] ⟨"q1", "it is PARIS I think"⟩ (by decide)⟩

/-- A 100-question quiz (distinct ids, canonical answer "a" throughout). -/
def cx100Questions : List QuizQuestion :=
  (List.range 100).map (fun i => ⟨toString i, "", none, "a", "", "short_answer"⟩)

/-- The 100-question quiz stored for user "u". -/
def cx100Quiz : Quiz :=
  ⟨"qz", "m", "u", "t", cx100Questions, "practice", 30, 0⟩

/-- A submission answering the first 29 questions correctly. -/
def cx29Answers : List UserAnswer :=
  (List.range 29).map (fun i => ⟨toString i, "a"⟩)

/-- C2 counterexample: on a stored quiz with N = 100 embedded questions
and a submission with exactly K = 29 pairs graded correct, the handler
returns score 28, not floor(100·29/100) = 29: the score is computed in
binary64 floating point (`int((29/100)*100)` evaluates to 28), so the
claimed exact integer floor is violated. -/
theorem claim_C2_counterexample :
    cx100Quiz.questions.length = 100 ∧
    correctCount cx100Quiz.questions cx29Answers = 29 ∧
    (submit_quiz [cx100Quiz] [] "u" "qz" ⟨"qz", cx29Answers, none, 0⟩).1 =
      .ok ⟨28, 29, 100⟩ ∧
    (28 : Nat) ≠ 100 * 29 / 100 := by decide

/-- C2 (amended): the score is `int((K/N)*100)` computed in binary64
floating point; whenever the stored quiz has 1 ≤ N ≤ 10 embedded
questions (the generator requests exactly 10) and K ≤ N pairs are graded
correct, this coincides with the exact integer floor of 100·K/N, and the
returned score is also the score persisted in the QuizResponse. -/
theorem claim_C2_amended (quizzes : List Quiz) (responses : List QuizResponseDoc)
    (uid quiz_id : String) (resp : QuizResponseDoc) (quiz : Quiz)
    (hfind : quizzes.find? (fun q => q.id == quiz_id && q.user_id == uid) = some quiz)
    (h1 : 1 ≤ quiz.questions.length) (h10 : quiz.questions.length ≤ 10)
    (hk : correctCount quiz.questions resp.user_answers ≤ quiz.questions.length) :
    (submit_quiz quizzes responses uid quiz_id resp).1 =
      .ok ⟨100 * correctCount quiz.questions resp.user_answers / quiz.questions.length,
        correctCount quiz.questions resp.user_answers, quiz.questions.length⟩ ∧
    (submit_quiz quizzes responses uid quiz_id resp).2 =
      responses ++ [{ resp with score := some (100 * correctCount quiz.questions
        resp.user_answers / quiz.questions.length) }] := by
  have hne : ¬ quiz.questions.length = 0 := by omega
  have hsc : pyScore (correctCount quiz.questions resp.user_answers)
      quiz.questions.length =
      100 * correctCount quiz.questions resp.user_answers / quiz.questions.length :=
    pyScore_eq_floor_small quiz.questions.length (by omega)
      (correctCount quiz.questions resp.user_answers) (by omega) h1 hk
  rw [submit_quiz, hfind]
  simp [hne, hsc]

/-- A stored two-question quiz used to witness the amended C2. -/
def w2Quiz : Quiz :=
  ⟨"z1", "m", "u", "t",
    [⟨"q1", "", none, "a", "", "mcq"⟩, ⟨"q2", "", none, "b", "", "mcq"⟩],
    "practice", 15, 0⟩

/-- A submission answering one of the two questions correctly. -/
def w2Resp : QuizResponseDoc := ⟨"z1", [⟨"q1", "a"⟩], none, 0⟩

/-- Witness for C2 (amended): a stored two-question quiz with one pair
graded correct scores 50. -/
theorem claim_C2_witness :
    (([w2Quiz].find? (fun q => q.id == "z1" && q.user_id == "u") = some w2Quiz) ∧
      1 ≤ w2Quiz.questions.length ∧ w2Quiz.questions.length ≤ 10 ∧
      correctCount w2Quiz.questions w2Resp.user_answers ≤ w2Quiz.questions.length) ∧
    ((submit_quiz [w2Quiz] [] "u" "z1" w2Resp).1 =
      .ok ⟨100 * correctCount w2Quiz.questions w2Resp.user_answers /
          w2Quiz.questions.length,
        correctCount w2Quiz.questions w2Resp.user_answers, w2Quiz.questions.length⟩ ∧
    (submit_quiz [w2Quiz] [] "u" "z1" w2Resp).2 =
      [] ++ [{ w2Resp with score := some (100 * correctCount w2Quiz.questions
        w2Resp.user_answers / w2Quiz.questions.length) }]) :=
  ⟨⟨by decide, by decide, by decide, by decide⟩,
   claim_C2_amended [w2Quiz] [] "u" "z1" w2Resp w2Quiz
     (by decide) (by decide) (by decide) (by decide)⟩

/-- C3 counterexample: a stored one-question quiz submitted with the
same question id answered correctly twice is scored 200, outside 0–100:
the grading loop counts every submitted pair, so repeated ids push
`correct_answers` above the question count. -/
theorem claim_C3_counterexample :
    (submit_quiz [⟨"z1", "m", "u", "t", [⟨"q1", "", none, "a", "", "mcq"⟩],
        "practice", 15, 0⟩] [] "u" "z1"
      ⟨"z1", [⟨"q1", "a"⟩, ⟨"q1", "a"⟩], none, 0⟩).1 =
      .ok ⟨200, 2, 1⟩ ∧
    ¬ (200 : Nat) ≤ 100 := by decide

/-- C3 (amended): when the submitted pairs carry pairwise-distinct
question ids, the computed score lies between 0 and 100 inclusive (the
lower bound holds by the score being a natural number), and the
quiz_responses collection after the call is either unchanged (on error)
or extended by the response carrying that same score.  Submissions
repeating a question id can exceed 100, as the counterexample shows. -/
theorem claim_C3_amended (quizzes : List Quiz) (responses : List QuizResponseDoc)
    (uid quiz_id : String) (resp : QuizResponseDoc)
    (hnd : (resp.user_answers.map UserAnswer.question_id).Nodup) :
    scoreOf (submit_quiz quizzes responses uid quiz_id resp).1 ≤ 100 ∧
    ((submit_quiz quizzes responses uid quiz_id resp).2 = responses ∨
      (submit_quiz quizzes responses uid quiz_id resp).2 =
        responses ++ [{ resp with
          score := some (scoreOf (submit_quiz quizzes responses uid quiz_id resp).1) }]) := by
  cases hfind : quizzes.find? (fun q => q.id == quiz_id && q.user_id == uid) with
  | none =>
    rw [submit_quiz, hfind]
    simp [scoreOf]
  | some quiz =>
    by_cases h0 : quiz.questions.length = 0
    · rw [submit_quiz, hfind]
      simp [h0, scoreOf]
    · have hk := correctCount_le_length quiz.questions resp.user_answers hnd
      have hb := pyScore_le_100 (Nat.pos_of_ne_zero h0) hk
      rw [submit_quiz, hfind]
      simp [h0, scoreOf, hb]

/-- Witness for C3 (amended) at a concrete duplicate-free submission. -/
theorem claim_C3_witness :
    (([(⟨"q1", "x"⟩ : UserAnswer), ⟨"q9", "y"⟩].map UserAnswer.question_id).Nodup) ∧
    (scoreOf (submit_quiz [w2Quiz] [] "u" "z1"
        ⟨"z1", [⟨"q1", "x"⟩, ⟨"q9", "y"⟩], none, 0⟩).1 ≤ 100 ∧
    ((submit_quiz [w2Quiz] [] "u" "z1" ⟨"z1", [⟨"q1", "x"⟩, ⟨"q9", "y"⟩], none, 0⟩).2 =
        [] ∨
      (submit_quiz [w2Quiz] [] "u" "z1" ⟨"z1", [⟨"q1", "x"⟩, ⟨"q9", "y"⟩], none, 0⟩).2 =
        [] ++ [{ (⟨"z1", [⟨"q1", "x"⟩, ⟨"q9", "y"⟩], none, 0⟩ : QuizResponseDoc) with
          score := some (scoreOf (submit_quiz [w2Quiz] [] "u" "z1"
            ⟨"z1", [⟨"q1", "x"⟩, ⟨"q9", "y"⟩], none, 0⟩).1) }])) :=
  ⟨by decide,
   claim_C3_amended [w2Quiz] [] "u" "z1" ⟨"z1", [⟨"q1", "x"⟩, ⟨"q9", "y"⟩], none, 0⟩
     (by decide)⟩

/-- C4: for distinct users A and B and a material owned by A, every
material-scoped operation B attempts on that id — get material, quiz
generate, flashcard generate, chat ask — fails with NotFound and returns
none of the material data; moreover a successful get only ever returns a
record whose id is the requested one and whose owner is the caller
(every read filters by both).  The uniqueness hypothesis states that no
other stored material reuses the id of the material owned by A (ids are
fresh UUIDs). -/
theorem claim_C4_ownership (ms : List StudyMaterial) (quizzes : List Quiz)
    (fcs : List Flashcard) (M : StudyMaterial) (A B : String)
    (quiz_type question_type quizId : String) (now : Nat)
    (aiq : Except String (List QuizQuestion)) (mkId : Nat → String)
    (aif : Except String (List FlashcardData)) (question : String)
    (aia : Except String String) (mid0 : String) (m0 : StudyMaterial)
    (hmem : M ∈ ms) (howner : M.user_id = A) (hBA : B ≠ A)
    (huniq : ∀ m ∈ ms, m.id = M.id → m.user_id = A) :
    get_material ms B M.id = .error .notFound ∧
    (generate_quiz ms quizzes B M.id quiz_type question_type quizId now aiq).1 =
      .error .notFound ∧
    (generate_flashcards ms fcs B M.id mkId now aif).1 = .error .notFound ∧
    ask_question ms B M.id question aia = .error .notFound ∧
    (get_material ms B mid0 = .ok m0 → m0.user_id = B ∧ m0.id = mid0) := by
  have hnone : ms.find? (fun m => m.id == M.id && m.user_id == B) = none := by
    rw [List.find?_eq_none]
    intro m hm
    simp only [Bool.and_eq_true, beq_iff_eq, not_and]
    intro hid huid
    exact hBA (huid ▸ huniq m hm hid)
  refine ⟨?_, ?_, ?_, ?_, ?_⟩
  · rw [get_material, hnone]
  · rw [generate_quiz, hnone]
  · rw [generate_flashcards.eq_def, hnone]
  · rw [ask_question.eq_def, hnone]
  · intro hok
    cases hfind : ms.find? (fun m => m.id == mid0 && m.user_id == B) with
    | none => rw [get_material, hfind] at hok; exact absurd hok (by simp)
    | some m =>
      have hp := List.find?_some hfind
      simp only [Bool.and_eq_true, beq_iff_eq] at hp
      rw [get_material, hfind] at hok
      have hm0 : m = m0 := by injection hok
      rw [← hm0]
      exact ⟨hp.2, hp.1⟩

/-- Witness for C4 at a concrete store holding one material owned by A,
with B the requesting user. -/
theorem claim_C4_witness :
    ((⟨"m1", "A", "T", "txt", "text", 0⟩ : StudyMaterial) ∈
        [(⟨"m1", "A", "T", "txt", "text", 0⟩ : StudyMaterial)] ∧
      (⟨"m1", "A", "T", "txt", "text", 0⟩ : StudyMaterial).user_id = "A" ∧
      ("B" : String) ≠ "A" ∧
      ∀ m ∈ [(⟨"m1", "A", "T", "txt", "text", 0⟩ : StudyMaterial)],
        m.id = (⟨"m1", "A", "T", "txt", "text", 0⟩ : StudyMaterial).id →
          m.user_id = "A") ∧
    (get_material [⟨"m1", "A", "T", "txt", "text", 0⟩] "B"
        (⟨"m1", "A", "T", "txt", "text", 0⟩ : StudyMaterial).id = .error .notFound ∧
    (generate_quiz [⟨"m1", "A", "T", "txt", "text", 0⟩] [] "B"
        (⟨"m1", "A", "T", "txt", "text", 0⟩ : StudyMaterial).id "practice" "mcq" "qz" 0
        (.ok [])).1 = .error .notFound ∧
    (generate_flashcards [⟨"m1", "A", "T", "txt", "text", 0⟩] [] "B"
        (⟨"m1", "A", "T", "txt", "text", 0⟩ : StudyMaterial).id (fun _ => "f") 0
        (.ok [⟨"q", "a", "e"⟩])).1 = .error .notFound ∧
    ask_question [⟨"m1", "A", "T", "txt", "text", 0⟩] "B"
        (⟨"m1", "A", "T", "txt", "text", 0⟩ : StudyMaterial).id "why" (.ok "because") =
      .error .notFound ∧
    (get_material [⟨"m1", "A", "T", "txt", "text", 0⟩] "B" "m9" =
        .ok ⟨"m9", "B", "", "txt", "", 0⟩ →
      (⟨"m9", "B", "", "txt", "", 0⟩ : StudyMaterial).user_id = "B" ∧
        (⟨"m9", "B", "", "txt", "", 0⟩ : StudyMaterial).id = "m9")) :=
  ⟨⟨by decide, by decide, by decide, by decide⟩,
   claim_C4_ownership [⟨"m1", "A", "T", "txt", "text", 0⟩] [] []
     ⟨"m1", "A", "T", "txt", "text", 0⟩ "A" "B" "practice" "mcq" "qz" 0 (.ok [])
     (fun _ => "f") (.ok [⟨"q", "a", "e"⟩]) "why" (.ok "because") "m9"
     ⟨"m9", "B", "", "txt", "", 0⟩
     (by decide) (by decide) (by decide) (by decide)⟩

/-- C5: registering a fresh (email, password, name) and then logging in
with the same email and password both succeed, and both issued tokens
carry a subject that `get_current_user` resolves, before expiry, to the
same stored user id.  Hypotheses: the email is not yet registered and
the generated user id is fresh, and the authentication instants lie
within each token validity window. -/
theorem claim_C5_register_login (digest : String → String → String)
    (users : List StoredUser) (email password full_name newId salt : String)
    (now now2 n1 n2 : Nat)
    (hemail : users.find? (fun u => u.email == email) = none)
    (hfresh : ∀ v ∈ users, v.id ≠ newId)
    (h1 : n1 ≤ now + ACCESS_TOKEN_EXPIRE_MINUTES * 60)
    (h2 : n2 ≤ now2 + ACCESS_TOKEN_EXPIRE_MINUTES * 60) :
    ∃ tok1 tok2 u1 u2,
      (register digest users email password full_name newId salt now).1 = .ok tok1 ∧
      login digest (register digest users email password full_name newId salt now).2
        email password now2 = .ok tok2 ∧
      get_current_user (register digest users email password full_name newId salt now).2
        tok1 n1 = .ok u1 ∧
      get_current_user (register digest users email password full_name newId salt now).2
        tok2 n2 = .ok u2 ∧
      u1.id = u2.id := by
  have hreg : register digest users email password full_name newId salt now =
      (.ok (create_access_token newId now ACCESS_TOKEN_EXPIRE_MINUTES),
        users ++ [⟨newId, email, full_name, salt, digest salt password, now⟩]) := by
    rw [register, hemail]
    rfl
  have hfindEmail : (users ++
      [(⟨newId, email, full_name, salt, digest salt password, now⟩ : StoredUser)]).find?
        (fun u => u.email == email) =
      some ⟨newId, email, full_name, salt, digest salt password, now⟩ := by
    rw [List.find?_append, hemail]
    simp
  have hfindId : (users ++
      [(⟨newId, email, full_name, salt, digest salt password, now⟩ : StoredUser)]).find?
        (fun u => u.id == newId) =
      some ⟨newId, email, full_name, salt, digest salt password, now⟩ := by
    rw [List.find?_append]
    have husers : users.find? (fun u => u.id == newId) = none := by
      rw [List.find?_eq_none]
      intro v hv
      simp [hfresh v hv]
    rw [husers]
    simp
  refine ⟨create_access_token newId now ACCESS_TOKEN_EXPIRE_MINUTES,
    create_access_token newId now2 ACCESS_TOKEN_EXPIRE_MINUTES,
    ⟨newId, email, full_name, salt, digest salt password, now⟩,
    ⟨newId, email, full_name, salt, digest salt password, now⟩,
    ?_, ?_, ?_, ?_, rfl⟩
  · rw [hreg]
  · rw [hreg]
    rw [login, hfindEmail]
    simp [verify_password]
  · rw [hreg]
    rw [get_current_user]
    have hnotlt : ¬ (create_access_token newId now ACCESS_TOKEN_EXPIRE_MINUTES).exp < n1 := by
      simp only [create_access_token]
      omega
    rw [if_neg hnotlt]
    simp only [create_access_token]
    rw [hfindId]
  · rw [hreg]
    rw [get_current_user]
    have hnotlt : ¬ (create_access_token newId now2 ACCESS_TOKEN_EXPIRE_MINUTES).exp < n2 := by
      simp only [create_access_token]
      omega
    rw [if_neg hnotlt]
    simp only [create_access_token]
    rw [hfindId]

/-- Witness for C5 with a concrete digest function and an empty user
store. -/
theorem claim_C5_witness :
    (([] : List StoredUser).find? (fun u => u.email == "s@x.io") = none ∧
      (∀ v ∈ ([] : List StoredUser), v.id ≠ "u1") ∧
      (100 : Nat) ≤ 0 + ACCESS_TOKEN_EXPIRE_MINUTES * 60 ∧
      (205 : Nat) ≤ 5 + ACCESS_TOKEN_EXPIRE_MINUTES * 60) ∧
    (∃ tok1 tok2 u1 u2,
      (register (fun s p => s ++ p) [] "s@x.io" "pw" "Sam" "u1" "s1" 0).1 = .ok tok1 ∧
      login (fun s p => s ++ p)
        (register (fun s p => s ++ p) [] "s@x.io" "pw" "Sam" "u1" "s1" 0).2
        "s@x.io" "pw" 5 = .ok tok2 ∧
      get_current_user
        (register (fun s p => s ++ p) [] "s@x.io" "pw" "Sam" "u1" "s1" 0).2
        tok1 100 = .ok u1 ∧
      get_current_user
        (register (fun s p => s ++ p) [] "s@x.io" "pw" "Sam" "u1" "s1" 0).2
        tok2 205 = .ok u2 ∧
      u1.id = u2.id) :=
  ⟨⟨by decide, by decide, by decide, by decide⟩,
   claim_C5_register_login (fun s p => s ++ p) [] "s@x.io" "pw" "Sam" "u1" "s1" 0 5
     100 205 (by decide) (by decide) (by decide) (by decide)⟩

/-- C6: when the email is already present in the user store, a second
register call fails with Conflict (HTTP 400) whatever the password,
name, fresh id and salt are, and the user store is unchanged. -/
theorem claim_C6_duplicate_email (digest : String → String → String)
    (users : List StoredUser) (email password full_name newId salt : String)
    (now : Nat) (hpresent : ∃ u ∈ users, u.email = email) :
    register digest users email password full_name newId salt now =
      (.error .conflict, users) := by
  obtain ⟨u, hu, he⟩ := hpresent
  cases hfind : users.find? (fun v => v.email == email) with
  | none =>
    exact absurd (List.find?_eq_none.mp hfind u hu) (by simp [he])
  | some v =>
    rw [register, hfind]

/-- Witness for C6: a store already holding the email rejects a second
registration with different password and name. -/
theorem claim_C6_witness :
    (∃ u ∈ [(⟨"u1", "s@x.io", "Sam", "s1", "d1", 0⟩ : StoredUser)],
      u.email = "s@x.io") ∧
    register (fun s p => s ++ p) [⟨"u1", "s@x.io", "Sam", "s1", "d1", 0⟩]
        "s@x.io" "other-pw" "Other Name" "u2" "s2" 9 =
      (.error .conflict, [⟨"u1", "s@x.io", "Sam", "s1", "d1", 0⟩]) :=
  ⟨by decide,
   claim_C6_duplicate_email (fun s p => s ++ p)
     [⟨"u1", "s@x.io", "Sam", "s1", "d1", 0⟩] "s@x.io" "other-pw" "Other Name"
     "u2" "s2" 9 (by decide)⟩

/-- C7: a token whose expiry instant has passed always fails
authentication with Unauthorized (HTTP 401), even when its subject still
resolves to a stored user. -/
theorem claim_C7_expired_token (users : List StoredUser) (tok : TokenPayload)
    (now : Nat) (hexp : tok.exp < now)
    (huser : ∃ u ∈ users, u.id = tok.sub) :
    get_current_user users tok now = .error .unauthorized := by
  rw [get_current_user, if_pos hexp]

/-- Witness for C7: an expired token whose subject is still stored. -/
theorem claim_C7_witness :
    ((⟨"u1", 10⟩ : TokenPayload).exp < 11 ∧
      ∃ u ∈ [(⟨"u1", "s@x.io", "Sam", "s1", "d1", 0⟩ : StoredUser)],
        u.id = (⟨"u1", 10⟩ : TokenPayload).sub) ∧
    get_current_user [⟨"u1", "s@x.io", "Sam", "s1", "d1", 0⟩] ⟨"u1", 10⟩ 11 =
      .error .unauthorized :=
  ⟨⟨by decide, by decide⟩,
   claim_C7_expired_token [⟨"u1", "s@x.io", "Sam", "s1", "d1", 0⟩] ⟨"u1", 10⟩ 11
     (by decide) (by decide)⟩

/-- C8: when the lower-cased extension of the uploaded filename is not
on the allow-list, upload fails with BadRequest (HTTP 400) and the
upload directory, the materials collection and the count of AI gateway
calls are all left exactly as they were: the validation runs before the
file write and before the extraction call. -/
theorem claim_C8_bad_extension (st : UploadState) (uid title filename : String)
    (fileId matId : String) (now : Nat) (extract : Except String String)
    (hext : allowed_extensions.contains (pyExtension filename) = false) :
    upload_material st uid title filename fileId matId now extract =
      (.error .badRequest, st) := by
  rw [upload_material, hext]
  simp

/-- Witness for C8: uploading a .exe file changes nothing. -/
theorem claim_C8_witness :
    allowed_extensions.contains (pyExtension "payload.EXE") = false ∧
    upload_material ⟨["old.pdf"], [⟨"m1", "A", "T", "pdf", "t", 0⟩], 7⟩
        "A" "T2" "payload.EXE" "f9" "m9" 8 (.ok "text") =
      (.error .badRequest, ⟨["old.pdf"], [⟨"m1", "A", "T", "pdf", "t", 0⟩], 7⟩) :=
  ⟨by decide,
   claim_C8_bad_extension ⟨["old.pdf"], [⟨"m1", "A", "T", "pdf", "t", 0⟩], 7⟩
     "A" "T2" "payload.EXE" "f9" "m9" 8 (.ok "text") (by decide)⟩

/-- C9 counterexample: a successful flashcard generation whose parsed
model response holds three flashcards persists and returns three, not
the fixed count 15: the requested count appears only in the prompt and
is never enforced on the response. -/
theorem claim_C9_counterexample :
    okLength (generate_flashcards [⟨"m1", "A", "T", "txt", "text", 0⟩] [] "A" "m1"
        (fun i => toString i) 0
        (.ok [⟨"q1", "a1", "e1"⟩, ⟨"q2", "a2", "e2"⟩, ⟨"q3", "a3", "e3"⟩])).1 =
      some 3 ∧
    (3 : Nat) ≠ 15 := by decide

/-- C9 (amended): a successful flashcard generation persists and returns
exactly one flashcard per entry of the parsed model response — the batch
size equals the parsed list length, not the fixed count 15 named in the
prompt.  Hypotheses: the material is owned by the caller and the parsed
list is nonempty (an empty batch makes `insert_many` raise instead). -/
theorem claim_C9_amended (ms : List StudyMaterial) (fcs : List Flashcard)
    (uid material_id : String) (mkId : Nat → String) (now : Nat)
    (data : List FlashcardData) (M : StudyMaterial)
    (hfind : ms.find? (fun m => m.id == material_id && m.user_id == uid) = some M)
    (hne : data ≠ []) :
    okLength (generate_flashcards ms fcs uid material_id mkId now (.ok data)).1 =
      some data.length ∧
    (generate_flashcards ms fcs uid material_id mkId now (.ok data)).2.length =
      fcs.length + data.length := by
  have hlen : (data.enum.map (fun p =>
      ({ id := mkId p.1, material_id := material_id, user_id := uid,
         question := p.2.question, answer := p.2.answer,
         explanation := p.2.explanation, created_at := now } : Flashcard))).length =
      data.length := by
    rw [List.length_map, List.enum_length]
  have hnonempty : (data.enum.map (fun p =>
      ({ id := mkId p.1, material_id := material_id, user_id := uid,
         question := p.2.question, answer := p.2.answer,
         explanation := p.2.explanation, created_at := now } : Flashcard))).isEmpty =
      false := by
    rw [List.isEmpty_eq_false_iff_exists_mem]
    cases data with
    | nil => exact absurd rfl hne
    | cons d ds => exact ⟨_, List.mem_map.mpr ⟨(0, d), by simp [List.enum_cons], rfl⟩⟩
  rw [generate_flashcards.eq_def, hfind]
  simp [hnonempty, okLength, hlen]

/-- Witness for C9 (amended): two parsed flashcards yield a batch of
two appended to an existing store of one. -/
theorem claim_C9_witness :
    (([(⟨"m1", "A", "T", "txt", "text", 0⟩ : StudyMaterial)].find?
        (fun m => m.id == "m1" && m.user_id == "A") =
      some ⟨"m1", "A", "T", "txt", "text", 0⟩) ∧
      ([⟨"qa", "aa", "ea"⟩, ⟨"qb", "ab", "eb"⟩] : List FlashcardData) ≠ []) ∧
    (okLength (generate_flashcards [⟨"m1", "A", "T", "txt", "text", 0⟩]
        [⟨"f0", "m0", "A", "q0", "a0", "e0", 0⟩] "A" "m1" (fun i => toString i) 3
        (.ok [⟨"qa", "aa", "ea"⟩, ⟨"qb", "ab", "eb"⟩])).1 =
      some ([⟨"qa", "aa", "ea"⟩, ⟨"qb", "ab", "eb"⟩] : List FlashcardData).length ∧
    (generate_flashcards [⟨"m1", "A", "T", "txt", "text", 0⟩]
        [⟨"f0", "m0", "A", "q0", "a0", "e0", 0⟩] "A" "m1" (fun i => toString i) 3
        (.ok [⟨"qa", "aa", "ea"⟩, ⟨"qb", "ab", "eb"⟩])).2.length =
      ([(⟨"f0", "m0", "A", "q0", "a0", "e0", 0⟩ : Flashcard)] : List Flashcard).length +
        ([⟨"qa", "aa", "ea"⟩, ⟨"qb", "ab", "eb"⟩] : List FlashcardData).length) :=
  ⟨⟨by decide, by decide⟩,
   claim_C9_amended [⟨"m1", "A", "T", "txt", "text", 0⟩]
     [⟨"f0", "m0", "A", "q0", "a0", "e0", 0⟩] "A" "m1" (fun i => toString i) 3
     [⟨"qa", "aa", "ea"⟩, ⟨"qb", "ab", "eb"⟩] ⟨"m1", "A", "T", "txt", "text", 0⟩
     (by decide) (by decide)⟩

/-- C10: the score division of submit is unguarded: with the quiz found,
submission succeeds exactly when the embedded question list is nonempty,
and the `ZeroDivisionError` branch is reached exactly when it is empty
(`correct_answers / total_questions` with divisor 0). -/
theorem claim_C10_unguarded_division (quizzes : List Quiz)
    (responses : List QuizResponseDoc) (uid quiz_id : String)
    (resp : QuizResponseDoc) (quiz : Quiz)
    (hfind : quizzes.find? (fun q => q.id == quiz_id && q.user_id == uid) =
      some quiz) :
    ((submit_quiz quizzes responses uid quiz_id resp).1 = .error .zeroDivision ↔
      quiz.questions = []) ∧
    (exceptOk (submit_quiz quizzes responses uid quiz_id resp).1 = true ↔
      quiz.questions ≠ []) := by
  by_cases h0 : quiz.questions.length = 0
  · have hq : quiz.questions = [] := List.length_eq_zero.mp h0
    rw [submit_quiz, hfind]
    simp [h0, hq, exceptOk]
  · have hq : quiz.questions ≠ [] := by
      intro hh
      exact h0 (by simp [hh])
    rw [submit_quiz, hfind]
    simp [h0, hq, exceptOk]

/-- Witness for C10 at a stored quiz with no embedded questions: the
submission reaches the division-by-zero branch. -/
theorem claim_C10_witness :
    (([(⟨"z0", "m", "u", "t", [], "practice", 15, 0⟩ : Quiz)].find?
        (fun q => q.id == "z0" && q.user_id == "u") =
      some ⟨"z0", "m", "u", "t", [], "practice", 15, 0⟩)) ∧
    (((submit_quiz [⟨"z0", "m", "u", "t", [], "practice", 15, 0⟩] [] "u" "z0"
        ⟨"z0", [], none, 0⟩).1 = .error .zeroDivision ↔
      ([] : List QuizQuestion) = []) ∧
    (exceptOk (submit_quiz [⟨"z0", "m", "u", "t", [], "practice", 15, 0⟩] [] "u" "z0"
        ⟨"z0", [], none, 0⟩).1 = true ↔
      ([] : List QuizQuestion) ≠ [])) :=
  ⟨by decide,
   claim_C10_unguarded_division [⟨"z0", "m", "u", "t", [], "practice", 15, 0⟩] []
     "u" "z0" ⟨"z0", [], none, 0⟩ ⟨"z0", "m", "u", "t", [], "practice", 15, 0⟩
     (by decide)⟩

end EduMentor
